import Mathlib

/-!
Shallow embedding of `src/coverage_pipeline.py` (class `PythonCoveragePipeline`
and the `CoverageResult` dataclass), written to settle the claims about the
coverage-analysis pipeline.  Pure helpers are translated into Lean functions;
the orchestrator `analyze`, whose behaviour depends on the filesystem and on
the external pytest subprocess, is modelled by explicit state passing: an
environment record supplies the outcomes of the external interactions (file
existence, the pytest run, the coverage summary, report saving, workspace
removal) and `analyze` returns the `CoverageResult` together with a trace of
the effects it performed.
-/

namespace CoveragePipeline

/-! ### Result parser: `_parse_test_results` (lines 179-203)

The Python code extracts pass/fail counts with `re.search(r'(\d+) passed', ...)`
and `re.search(r'(\d+) failed', ...)`.  `re.search` returns the leftmost match;
since `\d+` is greedy and must be followed by a space, only the maximal digit
run starting at a given position can match, so the search is faithfully
modelled by scanning each start position left to right, taking the maximal
digit run there and testing whether the keyword follows it. -/

/-- Numeric value of a digit string, as Python `int()` on the regex group. -/
def digitsToNat (ds : List Char) : Nat :=
  ds.foldl (fun acc c => acc * 10 + (c.toNat - 48)) 0

/-- Leftmost match of the pattern `(\d+)<kw>`: at each position take the
maximal digit run and require `kw` to follow; models `re.search(r'(\d+) passed'
, output)` with `kw = " passed"` (and similarly for `" failed"`). -/
def findNumBefore (kw : List Char) : List Char → Option Nat
  | [] => none
  | c :: cs =>
    let run := (c :: cs).takeWhile Char.isDigit
    if run ≠ [] ∧ kw.isPrefixOf ((c :: cs).drop run.length) then
      some (digitsToNat run)
    else
      findNumBefore kw cs

/-- Substring containment on character lists; models Python `needle in hay`. -/
def listContainsSub (needle : List Char) : List Char → Bool
  | [] => needle.isEmpty
  | c :: cs => needle.isPrefixOf (c :: cs) || listContainsSub needle cs

/-- `_parse_test_results(output, total_tests)` (lines 179-203): regex counts,
then the fallback that fires when both counts are zero — all-passed when
`'passed' in output.lower()`, otherwise all-failed. -/
def parse_test_results (output : String) (total_tests : Nat) : Nat × Nat :=
  let cs := output.toList
  let passed := (findNumBefore " passed".toList cs).getD 0
  let failed := (findNumBefore " failed".toList cs).getD 0
  if passed = 0 ∧ failed = 0 then
    if listContainsSub "passed".toList (cs.map Char.toLower) then
      (total_tests, 0)
    else
      (0, total_tests)
  else
    (passed, failed)

/-! ### Interpreter: `_generate_interpretation` (lines 293-334)

Coverage percentages are Python floats compared against the integer
thresholds 50, 80, 90; they are modelled as rationals, on which those
comparisons coincide.  Note the Python truthiness tests on lines 327/329
(`if branch_cov and branch_cov >= 90`, `elif branch_cov`): a branch coverage
of exactly `0.0` is falsy there, which the model reproduces. -/

/-- The tail of `_generate_interpretation` after the low/moderate branch
checks fall through (lines 326-334): the `line_cov >= 90` block, with the
truthiness of `branch_cov` (None and 0.0 both falsy) made explicit. -/
def interpretationTail (line_cov : ℚ) (branch_cov : Option ℚ) : String :=
  if 90 ≤ line_cov then
    match branch_cov with
    | some b =>
      if b ≠ 0 ∧ 90 ≤ b then "Excellent coverage - well-tested code"
      else if b ≠ 0 then "Good line coverage but some branches untested"
      else "Good line coverage achieved"
    | none => "Good line coverage achieved"
  else
    "Adequate coverage"

set_option linter.unusedVariables false

/-- `_generate_interpretation(passed, failed, line_cov, branch_cov)`
(lines 293-334).  `passed` is accepted but unused, exactly as in the source. -/
def generate_interpretation (passed failed : Nat) (line_cov : ℚ)
    (branch_cov : Option ℚ) : String :=
  if 0 < failed then
    toString failed ++ " test(s) failed - fix failing tests first"
  else if line_cov < 50 then
    "Low line coverage - significant untested code paths"
  else if line_cov < 80 then
    "Moderate line coverage - some untested code paths"
  else
    match branch_cov with
    | some b =>
      if b < 50 then
        "Low branch coverage - untested conditional logic and error paths"
      else if b < 80 then
        "Moderate branch coverage - some conditional branches untested"
      else
        interpretationTail line_cov branch_cov
    | none => interpretationTail line_cov branch_cov

/-! ### Test harness generator: `_create_test_file` (lines 77-134)

The generated module consists of a fixed header (path adjustment, import of
the target function, the `candidate` alias) followed by one test function per
input assertion.  The claims concern the per-assertion test units, so the loop
of lines 119-128 is modelled as producing the list of those units: the i-th
unit is named `test_case_i` and wraps exactly one assertion statement, built
from the stripped input with the `assert` keyword prepended when absent.
Python `str.strip()` removes leading and trailing whitespace; it is modelled
on the character list. -/

/-- One generated test function: its pytest identifier and the single
assertion statement in its body. -/
structure TestUnit where
  name : String
  assertion : String
deriving Repr, DecidableEq

/-- Python `str.strip()`: drop leading and trailing whitespace characters. -/
def pyStrip (cs : List Char) : List Char :=
  ((cs.dropWhile Char.isWhitespace).reverse.dropWhile Char.isWhitespace).reverse

/-- The per-case body transformation of lines 120-122:
`test_code = test_case.strip()`, then prepend `"assert "` unless the stripped
text already starts with `assert` (Python `str.startswith`, a plain string
prefix test). -/
def mkTestCode (test_case : String) : String :=
  let test_code := pyStrip test_case.toList
  if ¬ ("assert".toList.isPrefixOf test_code) then
    String.mk ("assert ".toList ++ test_code)
  else
    String.mk test_code

/-- The generation loop of lines 119-128: `for i, test_case in
enumerate(test_cases)`, emitting `def test_case_{i}()` around the single
assertion `mkTestCode test_case`. -/
def createTestUnits (test_cases : List String) : List TestUnit :=
  test_cases.enum.map fun p =>
    { name := "test_case_" ++ toString p.1, assertion := mkTestCode p.2 }

/-! ### Target inspector: `_extract_function_name` (lines 49-75)

The source parses the file with `ast.parse` and then iterates `ast.walk(tree)`
— a breadth-first traversal of the whole syntax tree, not just its top level —
returning the first `FunctionDef` whose name does not start with `'_'`;
`"candidate"` is returned when the parse raises or when no such node is found.
The syntax tree is modelled by a node type distinguishing function
definitions, class definitions and all other constructs (which merely carry
their child nodes), and `ast.walk`'s queue-based breadth-first order is
reproduced literally.  A parse outcome is `Option (List PyNode)`: `none` for a
parse failure, `some body` for a module with the given top-level statements
(the `Module` node itself is never a `FunctionDef`, so walking the top-level
list is equivalent to walking from the module root). -/

/-- A Python AST node, as far as `_extract_function_name` observes it. -/
inductive PyNode where
  | functionDef (name : String) (body : List PyNode)
  | classDef (name : String) (body : List PyNode)
  | other (children : List PyNode)

/-- Child nodes, as `ast.iter_child_nodes` yields them. -/
def PyNode.children : PyNode → List PyNode
  | .functionDef _ body => body
  | .classDef _ body => body
  | .other cs => cs

mutual

/-- Size measure used for the termination of the breadth-first walk. -/
def PyNode.size : PyNode → Nat
  | .functionDef _ body => 1 + listSize body
  | .classDef _ body => 1 + listSize body
  | .other cs => 1 + listSize cs

/-- Total size of a worklist of nodes. -/
def listSize : List PyNode → Nat
  | [] => 0
  | n :: ns => n.size + listSize ns

end

theorem listSize_append (l₁ l₂ : List PyNode) :
    listSize (l₁ ++ l₂) = listSize l₁ + listSize l₂ := by
  induction l₁ with
  | nil => simp [listSize]
  | cons n ns ih => simp [listSize, ih]; omega

theorem listSize_cons (n : PyNode) (l : List PyNode) :
    listSize (n :: l) = n.size + listSize l := rfl

theorem listSize_children_lt (n : PyNode) :
    listSize n.children < n.size := by
  cases n <;> simp [listSize, PyNode.children, PyNode.size]

theorem walk_step_decreases (n : PyNode) (rest : List PyNode) :
    listSize (rest ++ n.children) < listSize (n :: rest) := by
  rw [listSize_append, listSize_cons]
  have h := listSize_children_lt n
  omega

/-- `ast.walk`: breadth-first traversal using a FIFO worklist — yield the
front node, enqueue its children at the back. -/
def astWalk : List PyNode → List PyNode
  | [] => []
  | n :: rest => n :: astWalk (rest ++ n.children)
termination_by l => listSize l
decreasing_by
  exact walk_step_decreases _ _

/-- The test of lines 65-68: the node is a `FunctionDef` whose name does not
start with an underscore (`not node.name.startswith('_')`). -/
def isPublicDef : PyNode → Bool
  | .functionDef name _ => ¬ ("_".toList.isPrefixOf name.toList)
  | _ => false

/-- Name of a node (empty for non-definition nodes). -/
def PyNode.defName : PyNode → String
  | .functionDef name _ => name
  | .classDef name _ => name
  | .other _ => ""

/-- `_extract_function_name` (lines 49-75), as a function of the parse
outcome: on parse failure (`none`, the `except` branch) return `"candidate"`;
otherwise return the name of the first public `FunctionDef` in the
breadth-first walk, or `"candidate"` when there is none. -/
def extract_function_name (parsed : Option (List PyNode)) : String :=
  match parsed with
  | none => "candidate"
  | some body =>
    match (astWalk body).find? isPublicDef with
    | some node => node.defName
    | none => "candidate"

/-! ### The `CoverageResult` dataclass (lines 19-33)

Coverage percentages are Python floats, modelled as rationals; the counter
fields are non-negative throughout the source (regex captures and list
lengths), so they are naturals. -/

/-- The `CoverageResult` dataclass: the single output record of `analyze`. -/
structure CoverageResult where
  problem_id : String
  tests_passed : Nat
  tests_failed : Nat
  total_tests : Nat
  line_coverage : ℚ
  statement_coverage : ℚ
  branch_coverage : Option ℚ
  statements_covered : Nat
  statements_total : Nat
  interpretation : String
  error_details : List String
  html_report_path : String
deriving Repr, DecidableEq

/-! ### Orchestrator: `analyze` (lines 419-556)

`analyze` interacts with the filesystem and an external pytest subprocess;
those interactions are supplied by an environment record, and `analyze`
returns the `CoverageResult` together with a trace of the effects performed.
Environment fields, in the order the source consults them:

* `fileExists` — the `os.path.exists(python_file)` test of line 440;
* `genRaises` — `some msg` when harness creation (`_create_test_file`,
  lines 460-465, the only operation between the existence check and the
  pytest call that touches the filesystem) raises; such an exception reaches
  the generic `except Exception` handler of line 534 before any subprocess
  is started;
* `runOutcome` — the fate of the `subprocess.run` call of lines 169-175:
  completion with captured combined stdout+stderr text, a
  `subprocess.TimeoutExpired` (the 30-second bound of line 174), or any other
  exception;
* `covSummary` — the quintuple returned by `_parse_coverage_json`
  (lines 205-262); that helper reads the external `coverage.json` artifact
  and catches every exception internally, always returning a quintuple, so
  its result is supplied abstractly;
* `errorsOf` — the result of `_extract_errors` (lines 336-417) on the
  captured output; a pure best-effort scraper whose output no claim
  constrains, supplied abstractly;
* `htmlExists` — the `os.path.exists(html_temp_dir)` test of line 486;
* `htmlSaveOk` — whether the `shutil.copytree` in `_save_html_report`
  (lines 279-291) succeeds; on failure that helper catches the exception and
  returns `""`;
* `rmtreeOk` — whether the final `shutil.rmtree(temp_dir)` of line 553
  succeeds; the `finally` block wraps it in `try: ... except: pass`, so a
  failure is swallowed and the workspace directory survives. -/

/-- Fate of the external pytest subprocess invocation. -/
inductive RunOutcome where
  | completed (output : String)
  | timedOut
  | raised (msg : String)

/-- The quintuple returned by `_parse_coverage_json` (line coverage,
statement coverage, optional branch coverage, covered statements, total
statements). -/
structure CovSummary where
  line_cov : ℚ
  statement_cov : ℚ
  branch_cov : Option ℚ
  covered_lines : Nat
  num_statements : Nat

/-- Outcomes of the external interactions of one `analyze` call. -/
structure AnalyzeEnv where
  fileExists : Bool
  genRaises : Option String
  runOutcome : RunOutcome
  covSummary : CovSummary
  errorsOf : String → List String
  htmlExists : Bool
  htmlSaveOk : Bool
  rmtreeOk : Bool

/-- Effects performed by one `analyze` call: whether the harness file was
generated, whether the pytest subprocess was started, whether the captured
output was parsed, and whether the temporary workspace directory was
actually removed by the `finally` block. -/
structure AnalyzeTrace where
  harnessGenerated : Bool
  pytestInvoked : Bool
  outputParsed : Bool
  tempDirRemoved : Bool
deriving Repr, DecidableEq

/-- `analyze(python_file, test_cases, problem_id)` (lines 419-556), for a
pipeline constructed with the given `output_dir`.  The body mirrors the
source: the existence check and its early return (lines 440-454); harness
generation, whose exception lands in the generic handler (lines 534-548)
without starting pytest; the pytest run with its timeout handler
(lines 518-532) and generic exception handler; and the normal path that
parses counts, reads the coverage summary, saves the HTML report
(lines 483-490, path `output_dir/problem_id/index.html` on success, `""`
otherwise), builds the interpretation and scrapes error details.  The
`finally` block attempts `shutil.rmtree` on every path and swallows its
failure, so the directory is removed exactly when `rmtreeOk` holds. -/
def analyze (env : AnalyzeEnv) (output_dir python_file : String)
    (test_cases : List String) (problem_id : String) :
    CoverageResult × AnalyzeTrace :=
  let removed := env.rmtreeOk
  if ¬ env.fileExists then
    ({ problem_id := problem_id
       tests_passed := 0
       tests_failed := test_cases.length
       total_tests := test_cases.length
       line_coverage := 0
       statement_coverage := 0
       branch_coverage := none
       statements_covered := 0
       statements_total := 0
       interpretation := "Error: Python file not found"
       error_details := ["File not found: " ++ python_file]
       html_report_path := "" },
     { harnessGenerated := false, pytestInvoked := false,
       outputParsed := false, tempDirRemoved := removed })
  else
    match env.genRaises with
    | some msg =>
      ({ problem_id := problem_id
         tests_passed := 0
         tests_failed := test_cases.length
         total_tests := test_cases.length
         line_coverage := 0
         statement_coverage := 0
         branch_coverage := none
         statements_covered := 0
         statements_total := 0
         interpretation := "Error: " ++ msg
         error_details := [msg]
         html_report_path := "" },
       { harnessGenerated := false, pytestInvoked := false,
         outputParsed := false, tempDirRemoved := removed })
    | none =>
      match env.runOutcome with
      | .timedOut =>
        ({ problem_id := problem_id
           tests_passed := 0
           tests_failed := test_cases.length
           total_tests := test_cases.length
           line_coverage := 0
           statement_coverage := 0
           branch_coverage := none
           statements_covered := 0
           statements_total := 0
           interpretation := "Timeout - execution exceeded 30 seconds"
           error_details := ["Timeout"]
           html_report_path := "" },
         { harnessGenerated := true, pytestInvoked := true,
           outputParsed := false, tempDirRemoved := removed })
      | .raised msg =>
        ({ problem_id := problem_id
           tests_passed := 0
           tests_failed := test_cases.length
           total_tests := test_cases.length
           line_coverage := 0
           statement_coverage := 0
           branch_coverage := none
           statements_covered := 0
           statements_total := 0
           interpretation := "Error: " ++ msg
           error_details := [msg]
           html_report_path := "" },
         { harnessGenerated := true, pytestInvoked := true,
           outputParsed := false, tempDirRemoved := removed })
      | .completed output =>
        let counts := parse_test_results output test_cases.length
        let cov := env.covSummary
        let html_report_path :=
          if env.htmlExists then
            if env.htmlSaveOk then
              output_dir ++ "/" ++ problem_id ++ "/index.html"
            else ""
          else ""
        ({ problem_id := problem_id
           tests_passed := counts.1
           tests_failed := counts.2
           total_tests := test_cases.length
           line_coverage := cov.line_cov
           statement_coverage := cov.statement_cov
           branch_coverage := cov.branch_cov
           statements_covered := cov.covered_lines
           statements_total := cov.num_statements
           interpretation :=
             generate_interpretation counts.1 counts.2 cov.line_cov cov.branch_cov
           error_details := env.errorsOf output
           html_report_path := html_report_path },
         { harnessGenerated := true, pytestInvoked := true,
           outputParsed := true, tempDirRemoved := removed })

/-! ### Supporting lemmas about the parser -/

/-- When both regex counts come back zero, `_parse_test_results` returns the
fallback verdict: all-passed when the lowercased output contains `"passed"`,
all-failed otherwise. -/
theorem parse_fallback_eq (output : String) (n : Nat)
    (h1 : (findNumBefore " passed".toList output.toList).getD 0 = 0)
    (h2 : (findNumBefore " failed".toList output.toList).getD 0 = 0) :
    parse_test_results output n =
      if listContainsSub "passed".toList (output.toList.map Char.toLower) then
        (n, 0)
      else
        (0, n) := by
  unfold parse_test_results
  simp only [h1, h2, and_self, if_true]

/-- When both regex counts come back zero, the fallback makes the two counts
sum to the requested total. -/
theorem parse_fallback_sum (output : String) (n : Nat)
    (h1 : (findNumBefore " passed".toList output.toList).getD 0 = 0)
    (h2 : (findNumBefore " failed".toList output.toList).getD 0 = 0) :
    (parse_test_results output n).1 + (parse_test_results output n).2 = n := by
  rw [parse_fallback_eq output n h1 h2]
  split <;> simp

/-- `_parse_test_results` returns `(0, 0)` only when the requested total is
itself zero: the fallback always sets one component to the total. -/
theorem parse_both_zero (output : String) (n : Nat)
    (h : (parse_test_results output n).1 = 0 ∧
      (parse_test_results output n).2 = 0) :
    n = 0 := by
  by_cases hc : (findNumBefore " passed".toList output.toList).getD 0 = 0 ∧
      (findNumBefore " failed".toList output.toList).getD 0 = 0
  · rw [parse_fallback_eq output n hc.1 hc.2] at h
    rcases h with ⟨h1, h2⟩
    split at h1 <;> simp_all
  · unfold parse_test_results at h
    simp only [if_neg hc] at h
    exact absurd h hc

/-- A nonempty pattern that occurs at some offset of the haystack is a
substring of it. -/
theorem contains_of_prefix_drop (nd : List Char) (cs : List Char) (k : Nat)
    (hp : nd.isPrefixOf (cs.drop k) = true) (hne : nd ≠ []) :
    listContainsSub nd cs = true := by
  induction cs generalizing k with
  | nil =>
    simp only [List.drop_nil] at hp
    cases nd with
    | nil => exact absurd rfl hne
    | cons c cs => simp [List.isPrefixOf] at hp
  | cons c cs ih =>
    cases k with
    | zero =>
      simp only [List.drop_zero] at hp
      simp [listContainsSub, hp]
    | succ k =>
      simp only [List.drop_succ_cons] at hp
      simp [listContainsSub, ih k hp]

/-- A successful `re.search` for `(\d+)<kw>` means `kw` occurs somewhere in
the text. -/
theorem findNumBefore_prefix (kw : List Char) (cs : List Char) (n : Nat)
    (h : findNumBefore kw cs = some n) :
    ∃ k, kw.isPrefixOf (cs.drop k) = true := by
  induction cs with
  | nil => simp [findNumBefore] at h
  | cons c cs ih =>
    rw [findNumBefore] at h
    split at h
    · rename_i hcond
      exact ⟨((c :: cs).takeWhile Char.isDigit).length, hcond.2⟩
    · obtain ⟨k, hk⟩ := ih h
      exact ⟨k + 1, by simpa [List.drop_succ_cons] using hk⟩

/-! ### Claim C5 — failure check precedes all coverage checks -/

/-- **C5.** Whenever `failed > 0`, `_generate_interpretation` returns the
"N test(s) failed - fix failing tests first" message with `N = failed`,
regardless of the line- and branch-coverage values: the failure check is the
first rung of the ladder. -/
theorem c5_failed_first (passed failed : Nat) (line_cov : ℚ)
    (branch_cov : Option ℚ) (h : 0 < failed) :
    generate_interpretation passed failed line_cov branch_cov =
      toString failed ++ " test(s) failed - fix failing tests first" := by
  unfold generate_interpretation
  simp [h]

/-- Witness for C5 at the spec's synthetic input
(passed=0, failed=2, line=95, branch=95). -/
theorem c5_failed_first_witness :
    0 < 2 ∧ generate_interpretation 0 2 95 (some 95) =
      toString 2 ++ " test(s) failed - fix failing tests first" :=
  ⟨by decide, c5_failed_first 0 2 95 (some 95) (by decide)⟩

/-! ### Claim C6 — interpretation at (failed=0, line=85, branch=None)

The claim (and the spec's §8 bullet) expects the "good line coverage
achieved" tier, but that tier requires `line_cov >= 90` (line 326); with
`line_cov = 85` and no failures the ladder falls through every rung to the
generic `"Adequate coverage"` message, exactly as the spec's §4.5/§9 text
itself describes for line coverage in [80, 90). -/

/-- **C6 counterexample.** At (failed=0, line=85, branch=None) the
interpretation is not the good-line-coverage message. -/
theorem c6_counterexample :
    generate_interpretation 0 0 85 none ≠ "Good line coverage achieved" ∧
    generate_interpretation 0 0 85 none = "Adequate coverage" := by
  constructor <;> decide

/-- **C6 (amended).** With no failures, no branch data, and line coverage in
[80, 90) — in particular at the claim's input 85 — the interpretation is the
generic "Adequate coverage" message. -/
theorem c6_adequate (passed : Nat) (line_cov : ℚ)
    (h1 : 80 ≤ line_cov) (h2 : line_cov < 90) :
    generate_interpretation passed 0 line_cov none = "Adequate coverage" := by
  unfold generate_interpretation interpretationTail
  have hn1 : ¬ line_cov < 50 := by linarith
  have hn2 : ¬ line_cov < 80 := by linarith
  have hn3 : ¬ 90 ≤ line_cov := by linarith
  simp [hn1, hn2, hn3]

/-- Witness for C6 (amended) at the claim's input (failed=0, line=85,
branch=None). -/
theorem c6_adequate_witness :
    (80 : ℚ) ≤ 85 ∧ (85 : ℚ) < 90 ∧
      generate_interpretation 0 0 85 none = "Adequate coverage" :=
  ⟨by norm_num, by norm_num, c6_adequate 0 85 (by norm_num) (by norm_num)⟩

/-! ### Claim C8 — fallback policy of the pass/fail parser -/

/-- **C8.** If the pass-count and fail-count patterns both come back zero,
`_parse_test_results` infers all-passed (`passed = total, failed = 0`) when
the text contains `"passed"` case-insensitively, and all-failed
(`passed = 0, failed = total`) otherwise. -/
theorem c8_fallback_policy (output : String) (total_tests : Nat)
    (h1 : (findNumBefore " passed".toList output.toList).getD 0 = 0)
    (h2 : (findNumBefore " failed".toList output.toList).getD 0 = 0) :
    parse_test_results output total_tests =
      if listContainsSub "passed".toList (output.toList.map Char.toLower) then
        (total_tests, 0)
      else
        (0, total_tests) :=
  parse_fallback_eq output total_tests h1 h2

/-- Witness for C8: a collection-error text with no counts and no "passed"
marker is inferred all-failed. -/
theorem c8_fallback_policy_witness :
    (findNumBefore " passed".toList "2 errors".toList).getD 0 = 0 ∧
    (findNumBefore " failed".toList "2 errors".toList).getD 0 = 0 ∧
    parse_test_results "2 errors" 3 = (0, 3) := by
  refine ⟨by decide, by decide, ?_⟩
  rw [c8_fallback_policy "2 errors" 3 (by decide) (by decide)]
  decide

/-! ### Claim C10 — an explicit "0 passed" is overridden by the fallback -/

/-- **C10.** If the output matches the pass-count pattern with the value 0
(e.g. contains "0 passed") and does not match the fail-count pattern, the
parser returns `(total_tests, 0)`: the all-passed fallback overrides the
explicitly reported zero pass count, since a parsed 0 is indistinguishable
from an absent count. -/
theorem c10_zero_passed_override (output : String) (total_tests : Nat)
    (h0 : 0 < total_tests)
    (h1 : findNumBefore " passed".toList output.toList = some 0)
    (h2 : findNumBefore " failed".toList output.toList = none) :
    parse_test_results output total_tests = (total_tests, 0) := by
  have hg1 : (findNumBefore " passed".toList output.toList).getD 0 = 0 := by
    rw [h1]; rfl
  have hg2 : (findNumBefore " failed".toList output.toList).getD 0 = 0 := by
    rw [h2]; rfl
  rw [parse_fallback_eq output total_tests hg1 hg2]
  obtain ⟨k, hk⟩ := findNumBefore_prefix _ _ _ h1
  -- from " passed" at offset k, "passed" occurs at offset k+1
  rw [List.isPrefixOf_iff_prefix] at hk
  obtain ⟨t, ht⟩ := hk
  have hdrop : output.toList.drop (k + 1) = "passed".toList ++ t := by
    have : output.toList.drop (k + 1) = (output.toList.drop k).drop 1 := by
      rw [List.drop_drop]
    rw [this, ← ht]
    rfl
  have hpre : "passed".toList.isPrefixOf
      ((output.toList.map Char.toLower).drop (k + 1)) = true := by
    rw [← List.map_drop, hdrop, List.isPrefixOf_iff_prefix]
    have hlow : ("passed".toList ++ t).map Char.toLower =
        "passed".toList ++ t.map Char.toLower := by
      simp only [List.map_append]
      congr 1
    rw [hlow]
    exact ⟨t.map Char.toLower, rfl⟩
  rw [contains_of_prefix_drop _ _ _ hpre (by decide)]
  simp

/-- Witness for C10 at the literal output "0 passed" with 3 requested
tests. -/
theorem c10_zero_passed_override_witness :
    0 < 3 ∧ findNumBefore " passed".toList "0 passed".toList = some 0 ∧
    findNumBefore " failed".toList "0 passed".toList = none ∧
    parse_test_results "0 passed" 3 = (3, 0) :=
  ⟨by decide, by decide, by decide,
    c10_zero_passed_override "0 passed" 3 (by decide) (by decide) (by decide)⟩

/-! ### Claim C4 — harness generation -/

/-- **C4.** For every list of N input assertion strings, harness generation
produces exactly N test units, in input order, named `test_case_0` …
`test_case_{N-1}`, each wrapping exactly one assertion whose text is the
stripped input verbatim when it already begins with the `assert` keyword and
the keyword-prefixed stripped input otherwise. -/
theorem c4_harness_units (test_cases : List String) :
    (createTestUnits test_cases).length = test_cases.length ∧
    ∀ i, i < test_cases.length →
      (createTestUnits test_cases).getD i ⟨"", ""⟩ =
        { name := "test_case_" ++ toString i
          assertion :=
            if "assert".toList.isPrefixOf
                (pyStrip (test_cases.getD i "").toList) then
              String.mk (pyStrip (test_cases.getD i "").toList)
            else
              String.mk ("assert ".toList ++
                pyStrip (test_cases.getD i "").toList) } := by
  constructor
  · simp [createTestUnits]
  · intro i hi
    have hx : test_cases[i]? = some test_cases[i] :=
      List.getElem?_eq_getElem hi
    have hgd : test_cases.getD i "" = test_cases[i] := by
      rw [List.getD_eq_getElem?_getD, hx]
      rfl
    rw [List.getD_eq_getElem?_getD, createTestUnits, List.getElem?_map,
      List.getElem?_enum, hx, hgd]
    simp [mkTestCode, ite_not]

/-- Witness for C4: two assertions, one already keyword-prefixed and one
bare, produce two units with stable names, the second keyword-prefixed. -/
theorem c4_harness_units_witness :
    (createTestUnits ["assert candidate(1) == 2", "  candidate(2) == 3  "]).length = 2 ∧
    (createTestUnits ["assert candidate(1) == 2", "  candidate(2) == 3  "]).getD 1 ⟨"", ""⟩ =
      ⟨"test_case_1", "assert candidate(2) == 3"⟩ := by
  have h := c4_harness_units ["assert candidate(1) == 2", "  candidate(2) == 3  "]
  refine ⟨by simpa using h.1, ?_⟩
  rw [h.2 1 (by decide)]
  decide

/-! ### Claim C2 — missing source file short-circuits -/

/-- **C2.** When the source file does not exist, `analyze` returns the
file-not-found record — `total_tests = len(test_cases)`,
`tests_failed = total_tests`, `tests_passed = 0`, non-empty file-not-found
interpretation — and performs no harness generation, no pytest invocation and
no output parsing. -/
theorem c2_missing_file (env : AnalyzeEnv) (output_dir python_file : String)
    (test_cases : List String) (problem_id : String)
    (h : env.fileExists = false) :
    analyze env output_dir python_file test_cases problem_id =
      ({ problem_id := problem_id
         tests_passed := 0
         tests_failed := test_cases.length
         total_tests := test_cases.length
         line_coverage := 0
         statement_coverage := 0
         branch_coverage := none
         statements_covered := 0
         statements_total := 0
         interpretation := "Error: Python file not found"
         error_details := ["File not found: " ++ python_file]
         html_report_path := "" },
       { harnessGenerated := false, pytestInvoked := false,
         outputParsed := false, tempDirRemoved := env.rmtreeOk }) ∧
    "Error: Python file not found" ≠ "" := by
  refine ⟨?_, by decide⟩
  unfold analyze
  simp [h]

/-- Witness for C2 at a concrete environment with two test cases. -/
theorem c2_missing_file_witness :
    ({ fileExists := false, genRaises := none,
       runOutcome := .completed "2 passed", covSummary := ⟨100, 100, none, 4, 4⟩,
       errorsOf := fun _ => [], htmlExists := true, htmlSaveOk := true,
       rmtreeOk := true } : AnalyzeEnv).fileExists = false ∧
    analyze
      { fileExists := false, genRaises := none,
        runOutcome := .completed "2 passed", covSummary := ⟨100, 100, none, 4, 4⟩,
        errorsOf := fun _ => [], htmlExists := true, htmlSaveOk := true,
        rmtreeOk := true }
      "coverage_reports" "missing.py" ["a", "b"] "p1" =
      ({ problem_id := "p1"
         tests_passed := 0
         tests_failed := 2
         total_tests := 2
         line_coverage := 0
         statement_coverage := 0
         branch_coverage := none
         statements_covered := 0
         statements_total := 0
         interpretation := "Error: Python file not found"
         error_details := ["File not found: missing.py"]
         html_report_path := "" },
       { harnessGenerated := false, pytestInvoked := false,
         outputParsed := false, tempDirRemoved := true }) := by
  refine ⟨rfl, ?_⟩
  rw [(c2_missing_file _ "coverage_reports" "missing.py" ["a", "b"] "p1" rfl).1]
  decide

/-! ### Claim C3 — the timeout result

The claim says all pass/fail counter fields are zeroed on timeout; the
timeout handler (lines 518-532) in fact sets
`tests_failed = len(test_cases)`, zeroing only `tests_passed` and the
coverage fields.  The interpretation is the distinct timeout string and the
captured output is never parsed. -/

/-- **C3 counterexample.** With one test case, the timeout result has
`tests_failed = 1`, not the zeroed pass/fail counters the claim asserts. -/
theorem c3_counterexample :
    (analyze
      { fileExists := true, genRaises := none,
        runOutcome := .timedOut, covSummary := ⟨0, 0, none, 0, 0⟩,
        errorsOf := fun _ => [], htmlExists := false, htmlSaveOk := false,
        rmtreeOk := true }
      "coverage_reports" "slow.py" ["assert candidate(1) == 1"] "p2").1.interpretation =
      "Timeout - execution exceeded 30 seconds" ∧
    (analyze
      { fileExists := true, genRaises := none,
        runOutcome := .timedOut, covSummary := ⟨0, 0, none, 0, 0⟩,
        errorsOf := fun _ => [], htmlExists := false, htmlSaveOk := false,
        rmtreeOk := true }
      "coverage_reports" "slow.py" ["assert candidate(1) == 1"] "p2").1.tests_failed ≠ 0 := by
  constructor <;> decide

/-- **C3 (amended).** On `ExecutionTimeout`, `analyze` returns a
fully-populated record whose coverage fields and `tests_passed` are zeroed,
whose `tests_failed` equals `total_tests = len(test_cases)`, whose
interpretation is the distinct timeout string, and no parsing of the run's
output is attempted. -/
theorem c3_timeout (env : AnalyzeEnv) (output_dir python_file : String)
    (test_cases : List String) (problem_id : String)
    (hf : env.fileExists = true) (hg : env.genRaises = none)
    (hr : env.runOutcome = .timedOut) :
    analyze env output_dir python_file test_cases problem_id =
      ({ problem_id := problem_id
         tests_passed := 0
         tests_failed := test_cases.length
         total_tests := test_cases.length
         line_coverage := 0
         statement_coverage := 0
         branch_coverage := none
         statements_covered := 0
         statements_total := 0
         interpretation := "Timeout - execution exceeded 30 seconds"
         error_details := ["Timeout"]
         html_report_path := "" },
       { harnessGenerated := true, pytestInvoked := true,
         outputParsed := false, tempDirRemoved := env.rmtreeOk }) := by
  unfold analyze
  simp [hf, hg, hr]

/-- Witness for C3 (amended) at a concrete timed-out environment. -/
theorem c3_timeout_witness :
    (analyze
      { fileExists := true, genRaises := none,
        runOutcome := .timedOut, covSummary := ⟨0, 0, none, 0, 0⟩,
        errorsOf := fun _ => [], htmlExists := false, htmlSaveOk := false,
        rmtreeOk := true }
      "coverage_reports" "slow.py" ["a", "b", "c"] "p3").1 =
      { problem_id := "p3"
        tests_passed := 0
        tests_failed := 3
        total_tests := 3
        line_coverage := 0
        statement_coverage := 0
        branch_coverage := none
        statements_covered := 0
        statements_total := 0
        interpretation := "Timeout - execution exceeded 30 seconds"
        error_details := ["Timeout"]
        html_report_path := "" } := by
  rw [c3_timeout _ "coverage_reports" "slow.py" ["a", "b", "c"] "p3" rfl rfl rfl]
  decide

/-! ### Claim C1 — pass/fail accounting

The claim asserts `tests_passed + tests_failed == total_tests` whenever the
run completed, and that both counters are zero only in the three early-exit
branches.  Neither half matches the code: on the completed path the counters
are whatever `_parse_test_results` extracts from the pytest output, and an
output reporting counts that do not sum to `len(test_cases)` (e.g. a lone
"1 passed" when 3 tests were requested, as happens when collection errors
swallow tests) breaks the sum; and the early-exit branches set
`tests_failed = len(test_cases)`, not zero.  What does hold: `total_tests`
always equals `len(test_cases)`; the sum invariant holds in every early-exit
branch and, on the completed path, whenever the fallback fires (both regex
counts zero); and both counters are zero only when `len(test_cases) = 0`. -/

/-- **C1 counterexample.** A completed run (output parsed) whose captured
output reports "1 passed" while 3 tests were requested yields
`tests_passed + tests_failed = 1 ≠ 3 = total_tests`. -/
theorem c1_counterexample :
    (analyze
      { fileExists := true, genRaises := none,
        runOutcome := .completed "1 passed", covSummary := ⟨100, 100, none, 2, 2⟩,
        errorsOf := fun _ => [], htmlExists := false, htmlSaveOk := false,
        rmtreeOk := true }
      "coverage_reports" "sol.py" ["a", "b", "c"] "p4").2.outputParsed = true ∧
    (analyze
      { fileExists := true, genRaises := none,
        runOutcome := .completed "1 passed", covSummary := ⟨100, 100, none, 2, 2⟩,
        errorsOf := fun _ => [], htmlExists := false, htmlSaveOk := false,
        rmtreeOk := true }
      "coverage_reports" "sol.py" ["a", "b", "c"] "p4").1.tests_passed +
    (analyze
      { fileExists := true, genRaises := none,
        runOutcome := .completed "1 passed", covSummary := ⟨100, 100, none, 2, 2⟩,
        errorsOf := fun _ => [], htmlExists := false, htmlSaveOk := false,
        rmtreeOk := true }
      "coverage_reports" "sol.py" ["a", "b", "c"] "p4").1.tests_failed ≠
    (analyze
      { fileExists := true, genRaises := none,
        runOutcome := .completed "1 passed", covSummary := ⟨100, 100, none, 2, 2⟩,
        errorsOf := fun _ => [], htmlExists := false, htmlSaveOk := false,
        rmtreeOk := true }
      "coverage_reports" "sol.py" ["a", "b", "c"] "p4").1.total_tests := by
  constructor <;> decide

/-- **C1 (amended).** In every `analyze` result `total_tests` equals
`len(test_cases)`; both counters are zero only when `len(test_cases) = 0`;
the sum invariant `tests_passed + tests_failed = total_tests` holds in every
early-exit branch (where the output is never parsed) and, on the completed
path, whenever both regex counts come back zero (the fallback); when the
output reports explicit counts the result copies them and their sum may
differ from `total_tests`. -/
theorem c1_passfail_accounting (env : AnalyzeEnv)
    (output_dir python_file : String) (test_cases : List String)
    (problem_id : String) :
    (analyze env output_dir python_file test_cases problem_id).1.total_tests =
      test_cases.length ∧
    ((analyze env output_dir python_file test_cases problem_id).1.tests_passed = 0 ∧
     (analyze env output_dir python_file test_cases problem_id).1.tests_failed = 0 →
      test_cases.length = 0) ∧
    ((analyze env output_dir python_file test_cases problem_id).2.outputParsed = false →
      (analyze env output_dir python_file test_cases problem_id).1.tests_passed +
        (analyze env output_dir python_file test_cases problem_id).1.tests_failed =
        (analyze env output_dir python_file test_cases problem_id).1.total_tests) ∧
    (∀ output, env.fileExists = true → env.genRaises = none →
      env.runOutcome = .completed output →
      (findNumBefore " passed".toList output.toList).getD 0 = 0 →
      (findNumBefore " failed".toList output.toList).getD 0 = 0 →
      (analyze env output_dir python_file test_cases problem_id).1.tests_passed +
        (analyze env output_dir python_file test_cases problem_id).1.tests_failed =
        (analyze env output_dir python_file test_cases problem_id).1.total_tests) := by
  refine ⟨?_, ?_, ?_, ?_⟩
  · unfold analyze
    rcases henv : env.fileExists with _ | _ <;>
      rcases hgen : env.genRaises with _ | m <;>
      rcases hrun : env.runOutcome with o | _ | m' <;>
      simp [henv, hgen, hrun]
  · intro h
    unfold analyze at h
    rcases henv : env.fileExists with _ | _ <;>
      rcases hgen : env.genRaises with _ | m <;>
      rcases hrun : env.runOutcome with o | _ | m' <;>
      simp [henv, hgen, hrun] at h <;>
      first
      | exact parse_both_zero o test_cases.length h
      | simp [h]
  · intro h
    unfold analyze at h ⊢
    rcases henv : env.fileExists with _ | _ <;>
      rcases hgen : env.genRaises with _ | m <;>
      rcases hrun : env.runOutcome with o | _ | m' <;>
      simp [henv, hgen, hrun] at h ⊢
  · intro output hf hg hr h1 h2
    unfold analyze
    simp only [hf, hg, hr]
    simpa using parse_fallback_sum output test_cases.length h1 h2

/-- Witness for C1 (amended): a completed run whose output has no explicit
counts ("collection error"), with one requested test, satisfies the fallback
sum invariant `0 + 1 = 1`. -/
theorem c1_passfail_accounting_witness :
    (analyze
      { fileExists := true, genRaises := none,
        runOutcome := .completed "collection error", covSummary := ⟨0, 0, none, 0, 0⟩,
        errorsOf := fun _ => [], htmlExists := false, htmlSaveOk := false,
        rmtreeOk := true }
      "coverage_reports" "sol.py" ["assert candidate(0) == 0"] "p5").1.tests_passed +
    (analyze
      { fileExists := true, genRaises := none,
        runOutcome := .completed "collection error", covSummary := ⟨0, 0, none, 0, 0⟩,
        errorsOf := fun _ => [], htmlExists := false, htmlSaveOk := false,
        rmtreeOk := true }
      "coverage_reports" "sol.py" ["assert candidate(0) == 0"] "p5").1.tests_failed =
    (analyze
      { fileExists := true, genRaises := none,
        runOutcome := .completed "collection error", covSummary := ⟨0, 0, none, 0, 0⟩,
        errorsOf := fun _ => [], htmlExists := false, htmlSaveOk := false,
        rmtreeOk := true }
      "coverage_reports" "sol.py" ["assert candidate(0) == 0"] "p5").1.total_tests :=
  (c1_passfail_accounting
    { fileExists := true, genRaises := none,
      runOutcome := .completed "collection error", covSummary := ⟨0, 0, none, 0, 0⟩,
      errorsOf := fun _ => [], htmlExists := false, htmlSaveOk := false,
      rmtreeOk := true }
    "coverage_reports" "sol.py" ["assert candidate(0) == 0"] "p5").2.2.2
    "collection error" rfl rfl rfl (by decide) (by decide)

/-! ### Claim C9 — workspace cleanup

The claim asserts the workspace directory is always gone after `analyze` —
"unconditional removal, not best-effort".  The `finally` block (lines
550-555) is literally best-effort: `shutil.rmtree` is attempted on every exit
path, but it sits inside `try: ... except: pass`, so when the removal itself
fails the failure is swallowed and the directory survives. -/

/-- **C9 counterexample.** A successful run in an environment where the
`rmtree` call fails leaves the workspace directory on disk. -/
theorem c9_counterexample :
    (analyze
      { fileExists := true, genRaises := none,
        runOutcome := .completed "2 passed", covSummary := ⟨100, 100, none, 2, 2⟩,
        errorsOf := fun _ => [], htmlExists := false, htmlSaveOk := false,
        rmtreeOk := false }
      "coverage_reports" "sol.py" ["a", "b"] "p6").2.tempDirRemoved = false := by
  decide

/-- **C9 (amended).** On every exit path — missing file, generation failure,
timeout, unexpected exception, or normal completion — the `finally` block
attempts the removal, and the workspace directory is removed exactly when
that `rmtree` call succeeds (its own failure is suppressed: best-effort, not
guaranteed). -/
theorem c9_cleanup (env : AnalyzeEnv) (output_dir python_file : String)
    (test_cases : List String) (problem_id : String) :
    (analyze env output_dir python_file test_cases problem_id).2.tempDirRemoved =
      env.rmtreeOk := by
  unfold analyze
  rcases henv : env.fileExists with _ | _ <;>
    rcases hgen : env.genRaises with _ | m <;>
    rcases hrun : env.runOutcome with o | _ | m' <;>
    simp [henv, hgen, hrun]

/-! ### Claim C7 — the target inspector

The claim says the fallback `"candidate"` is returned whenever no top-level
public function exists.  But `ast.walk` visits every node of the tree, so a
public function nested inside a class (a method) or inside another function
is found and its name returned even though no top-level public function
exists.  What does hold: when a top-level public function exists it wins
(breadth-first order lists all top-level statements before any nested node);
parse failure yields `"candidate"`; and the result is non-empty whenever
every function name in the tree is a non-empty identifier (which `ast.parse`
guarantees for real Python sources). -/

mutual

/-- Every function/class name in the subtree is a non-empty string (true of
every tree produced by `ast.parse`, since Python identifiers are
non-empty). -/
def PyNode.namesOk : PyNode → Bool
  | .functionDef name body => (name != "") && listNamesOk body
  | .classDef name body => (name != "") && listNamesOk body
  | .other cs => listNamesOk cs

/-- `PyNode.namesOk` over a list of nodes. -/
def listNamesOk : List PyNode → Bool
  | [] => true
  | n :: ns => n.namesOk && listNamesOk ns

end

theorem listNamesOk_append (l₁ l₂ : List PyNode) :
    listNamesOk (l₁ ++ l₂) = (listNamesOk l₁ && listNamesOk l₂) := by
  induction l₁ with
  | nil => simp [listNamesOk]
  | cons n ns ih => simp [listNamesOk, ih, Bool.and_assoc]

theorem namesOk_children (n : PyNode) (h : n.namesOk = true) :
    listNamesOk n.children = true := by
  cases n <;> simp_all [PyNode.namesOk, PyNode.children]

theorem namesOk_of_mem (l : List PyNode) (n : PyNode)
    (hl : listNamesOk l = true) (hn : n ∈ l) : n.namesOk = true := by
  induction l with
  | nil => cases hn
  | cons m ms ih =>
    simp [listNamesOk] at hl
    rcases List.mem_cons.1 hn with h | h
    · exact h ▸ hl.1
    · exact ih hl.2 h

/-- The breadth-first walk yields the worklist itself first: its output is
the worklist followed by the nodes of deeper levels. -/
theorem astWalk_eq_append (l : List PyNode) :
    ∃ t, astWalk l = l ++ t := by
  generalize hm : listSize l = m
  induction m using Nat.strong_induction_on generalizing l with
  | _ m ih =>
    cases l with
    | nil => exact ⟨[], by simp [astWalk]⟩
    | cons n rest =>
      obtain ⟨t, ht⟩ :=
        ih (listSize (rest ++ n.children))
          (hm ▸ walk_step_decreases n rest) (rest ++ n.children) rfl
      refine ⟨n.children ++ t, ?_⟩
      rw [astWalk, ht]
      simp

/-- Name-validity is preserved by the breadth-first walk. -/
theorem listNamesOk_astWalk (l : List PyNode) (h : listNamesOk l = true) :
    listNamesOk (astWalk l) = true := by
  generalize hm : listSize l = m
  induction m using Nat.strong_induction_on generalizing l with
  | _ m ih =>
    cases l with
    | nil => simpa [astWalk] using h
    | cons n rest =>
      rw [astWalk]
      have h1 : n.namesOk = true := by
        simp [listNamesOk] at h
        exact h.1
      have h2 : listNamesOk rest = true := by
        simp [listNamesOk] at h
        exact h.2
      have h3 : listNamesOk (astWalk (rest ++ n.children)) = true :=
        ih (listSize (rest ++ n.children)) (hm ▸ walk_step_decreases n rest)
          (rest ++ n.children)
          (by rw [listNamesOk_append, h2, namesOk_children n h1]; rfl) rfl
      simp only [listNamesOk, h1, h3]
      rfl

/-- **C7 counterexample.** For a module whose only content is a class with a
public method `foo` — so that no top-level public function exists — the
inspector returns `"foo"`, not the claimed fallback `"candidate"`. -/
theorem c7_counterexample :
    extract_function_name (some [.classDef "A" [.functionDef "foo" []]]) =
      "foo" ∧ ("foo" : String) ≠ "candidate" := by
  constructor
  · simp [extract_function_name, astWalk, PyNode.children, isPublicDef,
      List.find?, PyNode.defName]
  · decide

/-- **C7 (amended).** The inspector returns the name of the first
`FunctionDef` in breadth-first order of the whole tree whose name does not
begin with an underscore — in particular, when a top-level public function
exists, the first such top-level function wins — and returns `"candidate"`
on parse failure or when no public function exists anywhere in the tree (not
merely at top level); the result is non-empty whenever every identifier in
the tree is non-empty. -/
theorem c7_inspector (parsed : Option (List PyNode)) :
    (parsed = none → extract_function_name parsed = "candidate") ∧
    (∀ body, parsed = some body →
      (∀ node, body.find? isPublicDef = some node →
        extract_function_name parsed = node.defName) ∧
      ((astWalk body).find? isPublicDef = none →
        extract_function_name parsed = "candidate") ∧
      (listNamesOk body = true → extract_function_name parsed ≠ "")) := by
  refine ⟨fun h => by rw [h]; rfl, fun body hbody => ⟨?_, ?_, ?_⟩⟩
  · intro node hnode
    obtain ⟨t, ht⟩ := astWalk_eq_append body
    rw [hbody]
    simp only [extract_function_name]
    rw [ht, List.find?_append, hnode]
    rfl
  · intro hnone
    rw [hbody]
    simp only [extract_function_name]
    rw [hnone]
  · intro hok
    rw [hbody]
    simp only [extract_function_name]
    rcases hfind : (astWalk body).find? isPublicDef with _ | node
    · decide
    · have hmem := List.mem_of_find?_eq_some hfind
      have hnode := List.find?_some hfind
      have hnok : node.namesOk = true :=
        namesOk_of_mem _ _ (listNamesOk_astWalk body hok) hmem
      cases node with
      | functionDef name nbody =>
        have hne : name ≠ "" := by
          simp [PyNode.namesOk] at hnok
          exact hnok.1
        simpa [PyNode.defName] using hne
      | classDef name nbody => simp [isPublicDef] at hnode
      | other cs => simp [isPublicDef] at hnode

/-- Witness for C7 (amended): a module with a private helper before a public
top-level function `solve` (and a nested public function inside the helper)
resolves to `solve`; name-validity gives a non-empty result. -/
theorem c7_inspector_witness :
    (some [PyNode.functionDef "_helper" [.functionDef "inner" []],
           PyNode.functionDef "solve" []] = some
      [PyNode.functionDef "_helper" [.functionDef "inner" []],
       PyNode.functionDef "solve" []]) ∧
    ([PyNode.functionDef "_helper" [.functionDef "inner" []],
      PyNode.functionDef "solve" []].find? isPublicDef =
      some (PyNode.functionDef "solve" [])) ∧
    extract_function_name
      (some [PyNode.functionDef "_helper" [.functionDef "inner" []],
             PyNode.functionDef "solve" []]) =
      (PyNode.functionDef "solve" []).defName := by
  refine ⟨rfl, ?_, ?_⟩
  · simp [List.find?, isPublicDef]
  · exact ((c7_inspector _).2 _ rfl).1 _ (by simp [List.find?, isPublicDef])

/-! ### Concrete evaluations of the embedding

Spot checks that the embedded functions compute what the Python functions
compute on representative inputs. -/

example : parse_test_results "1 passed" 3 = (1, 0) := by decide
example : parse_test_results "0 passed" 3 = (3, 0) := by decide
example : parse_test_results "error occurred" 3 = (0, 3) := by decide
example : parse_test_results "2 passed, 1 failed" 5 = (2, 1) := by decide
example : generate_interpretation 0 2 95 (some 95) =
    "2 test(s) failed - fix failing tests first" := by decide
example : generate_interpretation 0 0 85 none = "Adequate coverage" := by decide
example : generate_interpretation 0 0 95 none = "Good line coverage achieved" := by decide
example : generate_interpretation 0 0 95 (some 95) =
    "Excellent coverage - well-tested code" := by decide
example : createTestUnits ["assert candidate(1) == 2", "candidate(2) == 3"] =
    [⟨"test_case_0", "assert candidate(1) == 2"⟩,
     ⟨"test_case_1", "assert candidate(2) == 3"⟩] := by decide
example : extract_function_name
    (some [.classDef "A" [.functionDef "foo" []]]) = "foo" := by
  simp [extract_function_name, astWalk, PyNode.children, isPublicDef,
    List.find?, PyNode.defName]
example : extract_function_name
    (some [.functionDef "_p" [], .functionDef "main" []]) = "main" := by
  simp [extract_function_name, astWalk, PyNode.children, isPublicDef,
    List.find?, PyNode.defName]
example : extract_function_name (some [.other []]) = "candidate" := by
  simp [extract_function_name, astWalk, PyNode.children, isPublicDef, List.find?]
example : extract_function_name none = "candidate" := rfl
example :
    (analyze
      { fileExists := false, genRaises := none,
        runOutcome := .completed "x", covSummary := ⟨0, 0, none, 0, 0⟩,
        errorsOf := fun _ => [], htmlExists := false, htmlSaveOk := false,
        rmtreeOk := true }
      "coverage_reports" "f.py" ["a", "b"] "id").1.tests_failed = 2 := by decide
example :
    (analyze
      { fileExists := true, genRaises := none,
        runOutcome := .completed "1 passed", covSummary := ⟨0, 0, none, 0, 0⟩,
        errorsOf := fun _ => [], htmlExists := false, htmlSaveOk := false,
        rmtreeOk := true }
      "coverage_reports" "f.py" ["a", "b", "c"] "id").1.tests_passed = 1 := by decide

end CoveragePipeline
